import Mathlib

/-!
Verification development for the Flask technical-analysis dashboard
(`Analisi_con_dash_html.py`).  The computational kernel is embedded
shallowly: the Buy/Sell signal state machine `generate_buy_sell_signals`,
the indicator orchestrator `set_technical_indicators` (with the external
indicator library abstracted as a record of functions), and the price
summary computed in the `index` route.  Prices are modelled as exact
rationals; the special IEEE-754 values relevant to the zero-denominator
case of the percent-change computation are modelled by an extended
value type `EFloat`.
-/

namespace TradingAnalysis

/-- Position label produced by the state machine; the Python code uses the
strings `'Buy'` and `'Sell'`, with Python `None` as the initial sentinel
(modelled by `Option Signal`). -/
inductive Signal where
  | Buy : Signal
  | Sell : Signal
deriving DecidableEq

/-- String rendering of a signal, matching the Python string literals. -/
def Signal.str : Signal → String
  | .Buy => "Buy"
  | .Sell => "Sell"

/-- Output of `generate_buy_sell_signals`: the final `last_signal`, the
cumulative `indicator_state` column, and the `buy` / `sell` marker columns
(`none` plays the role of `np.nan`, i.e. a missing marker). -/
structure SignalSeries (α : Type) where
  lastSignal : Option Signal
  indicatorState : List (Option Signal)
  buy : List (Option α)
  sell : List (Option α)
deriving DecidableEq

/-- One iteration of the loop body of `generate_buy_sell_signals`
(src lines 46-58): the branch on `condition_buy i ∧ last_signal ≠ 'Buy'`,
then on `condition_sell i ∧ last_signal = 'Buy'`, else no transition;
each branch appends one entry to every column. -/
def sigStep {α : Type} (condition_buy condition_sell : Nat → Bool)
    (close : Nat → α) (acc : SignalSeries α) (i : Nat) : SignalSeries α :=
  if condition_buy i ∧ acc.lastSignal ≠ some Signal.Buy then
    ⟨some Signal.Buy, acc.indicatorState ++ [some Signal.Buy],
      acc.buy ++ [some (close i)], acc.sell ++ [none]⟩
  else if condition_sell i ∧ acc.lastSignal = some Signal.Buy then
    ⟨some Signal.Sell, acc.indicatorState ++ [some Signal.Sell],
      acc.buy ++ [none], acc.sell ++ [some (close i)]⟩
  else
    ⟨acc.lastSignal, acc.indicatorState ++ [acc.lastSignal],
      acc.buy ++ [none], acc.sell ++ [none]⟩

/-- Shallow embedding of `generate_buy_sell_signals` (src lines 37-63).
The data table is abstracted by its row count `n` and the `Close` column
access function `close`; the two condition closures receive the row index
(they close over the table, as in the source). -/
def generate_buy_sell_signals {α : Type} (condition_buy condition_sell : Nat → Bool)
    (close : Nat → α) (n : Nat) : SignalSeries α :=
  (List.range n).foldl (sigStep condition_buy condition_sell close) ⟨none, [], [], []⟩

/-- New value of `last_signal` after one loop iteration, as a function of
the previous value only. -/
def stepState (condition_buy condition_sell : Nat → Bool)
    (s : Option Signal) (i : Nat) : Option Signal :=
  if condition_buy i ∧ s ≠ some Signal.Buy then some Signal.Buy
  else if condition_sell i ∧ s = some Signal.Buy then some Signal.Sell
  else s

/-- Buy-marker entry appended at step `i` as a function of the previous state. -/
def stepBuy {α : Type} (condition_buy condition_sell : Nat → Bool)
    (close : Nat → α) (s : Option Signal) (i : Nat) : Option α :=
  if condition_buy i ∧ s ≠ some Signal.Buy then some (close i)
  else none

/-- Sell-marker entry appended at step `i` as a function of the previous state. -/
def stepSell {α : Type} (condition_buy condition_sell : Nat → Bool)
    (close : Nat → α) (s : Option Signal) (i : Nat) : Option α :=
  if condition_buy i ∧ s ≠ some Signal.Buy then none
  else if condition_sell i ∧ s = some Signal.Buy then some (close i)
  else none

section SignalLemmas

variable {α : Type} (f g : Nat → Bool) (close : Nat → α)

theorem sigStep_eq (acc : SignalSeries α) (i : Nat) :
    sigStep f g close acc i =
      ⟨stepState f g acc.lastSignal i,
        acc.indicatorState ++ [stepState f g acc.lastSignal i],
        acc.buy ++ [stepBuy f g close acc.lastSignal i],
        acc.sell ++ [stepSell f g close acc.lastSignal i]⟩ := by
  unfold sigStep stepState stepBuy stepSell
  split_ifs <;> rfl

theorem gen_zero :
    generate_buy_sell_signals f g close 0 = ⟨none, [], [], []⟩ := rfl

theorem gen_succ (n : Nat) :
    generate_buy_sell_signals f g close (n + 1) =
      sigStep f g close (generate_buy_sell_signals f g close n) n := by
  unfold generate_buy_sell_signals
  rw [List.range_succ, List.foldl_append]
  rfl

theorem gen_lastSignal_succ (n : Nat) :
    (generate_buy_sell_signals f g close (n + 1)).lastSignal =
      stepState f g (generate_buy_sell_signals f g close n).lastSignal n := by
  rw [gen_succ, sigStep_eq]

theorem gen_lengths (n : Nat) :
    (generate_buy_sell_signals f g close n).indicatorState.length = n ∧
    (generate_buy_sell_signals f g close n).buy.length = n ∧
    (generate_buy_sell_signals f g close n).sell.length = n := by
  induction n with
  | zero => exact ⟨rfl, rfl, rfl⟩
  | succ n ih =>
    rw [gen_succ, sigStep_eq]
    simp only [List.length_append, List.length_singleton]
    exact ⟨by rw [ih.1], by rw [ih.2.1], by rw [ih.2.2]⟩

theorem gen_state_succ (n : Nat) :
    (generate_buy_sell_signals f g close (n + 1)).indicatorState =
      (generate_buy_sell_signals f g close n).indicatorState ++
        [stepState f g (generate_buy_sell_signals f g close n).lastSignal n] := by
  rw [gen_succ, sigStep_eq]

theorem gen_buy_succ (n : Nat) :
    (generate_buy_sell_signals f g close (n + 1)).buy =
      (generate_buy_sell_signals f g close n).buy ++
        [stepBuy f g close (generate_buy_sell_signals f g close n).lastSignal n] := by
  rw [gen_succ, sigStep_eq]

theorem gen_sell_succ (n : Nat) :
    (generate_buy_sell_signals f g close (n + 1)).sell =
      (generate_buy_sell_signals f g close n).sell ++
        [stepSell f g close (generate_buy_sell_signals f g close n).lastSignal n] := by
  rw [gen_succ, sigStep_eq]

theorem getD_concat_length {β : Type} (l : List β) (x d : β) :
    (l ++ [x]).getD l.length d = x := by
  rw [List.getD_append_right _ _ _ _ le_rfl, Nat.sub_self]
  rfl

theorem gen_state_getD {i n : Nat} (h : i < n) :
    (generate_buy_sell_signals f g close n).indicatorState.getD i none =
      stepState f g (generate_buy_sell_signals f g close i).lastSignal i := by
  induction n with
  | zero => omega
  | succ n ih =>
    rcases Nat.lt_succ_iff_lt_or_eq.mp h with h' | h'
    · rw [gen_state_succ,
        List.getD_append _ _ _ _ (by rw [(gen_lengths f g close n).1]; exact h')]
      exact ih h'
    · subst h'
      have hx := getD_concat_length
        (generate_buy_sell_signals f g close i).indicatorState
        (stepState f g (generate_buy_sell_signals f g close i).lastSignal i)
        (none : Option Signal)
      rw [(gen_lengths f g close i).1] at hx
      rw [gen_state_succ]
      exact hx

theorem gen_buy_getD {i n : Nat} (h : i < n) :
    (generate_buy_sell_signals f g close n).buy.getD i none =
      stepBuy f g close (generate_buy_sell_signals f g close i).lastSignal i := by
  induction n with
  | zero => omega
  | succ n ih =>
    rcases Nat.lt_succ_iff_lt_or_eq.mp h with h' | h'
    · rw [gen_buy_succ,
        List.getD_append _ _ _ _ (by rw [(gen_lengths f g close n).2.1]; exact h')]
      exact ih h'
    · subst h'
      have hx := getD_concat_length
        (generate_buy_sell_signals f g close i).buy
        (stepBuy f g close (generate_buy_sell_signals f g close i).lastSignal i)
        (none : Option α)
      rw [(gen_lengths f g close i).2.1] at hx
      rw [gen_buy_succ]
      exact hx

theorem gen_sell_getD {i n : Nat} (h : i < n) :
    (generate_buy_sell_signals f g close n).sell.getD i none =
      stepSell f g close (generate_buy_sell_signals f g close i).lastSignal i := by
  induction n with
  | zero => omega
  | succ n ih =>
    rcases Nat.lt_succ_iff_lt_or_eq.mp h with h' | h'
    · rw [gen_sell_succ,
        List.getD_append _ _ _ _ (by rw [(gen_lengths f g close n).2.2]; exact h')]
      exact ih h'
    · subst h'
      have hx := getD_concat_length
        (generate_buy_sell_signals f g close i).sell
        (stepSell f g close (generate_buy_sell_signals f g close i).lastSignal i)
        (none : Option α)
      rw [(gen_lengths f g close i).2.2] at hx
      rw [gen_sell_succ]
      exact hx

theorem stepState_none_of_none {s : Option Signal} {i : Nat}
    (h : stepState f g s i = none) : s = none := by
  unfold stepState at h
  split_ifs at h
  exact h

theorem gen_lastSignal_none_mono {m n : Nat} (h : m ≤ n)
    (h0 : (generate_buy_sell_signals f g close n).lastSignal = none) :
    (generate_buy_sell_signals f g close m).lastSignal = none := by
  induction n with
  | zero =>
    rcases Nat.le_zero.mp h
    exact h0
  | succ n ih =>
    rw [gen_lastSignal_succ] at h0
    have hn := stepState_none_of_none f g h0
    rcases Nat.le_succ_iff.mp h with h' | h'
    · exact ih h' hn
    · subst h'
      rw [gen_lastSignal_succ, hn]
      rw [hn] at h0
      rw [h0]

theorem gen_lastSignal_eq_state (n : Nat) (h : n ≠ 0) :
    (generate_buy_sell_signals f g close n).lastSignal =
      (generate_buy_sell_signals f g close n).indicatorState.getD (n - 1) none := by
  obtain ⟨m, rfl⟩ := Nat.exists_eq_succ_of_ne_zero h
  rw [gen_lastSignal_succ, Nat.succ_sub_one]
  exact (gen_state_getD f g close (Nat.lt_succ_self m)).symm

end SignalLemmas

/-- Close prices of the worked example of spec §8: `[10, 9, 11, 12, 8]`. -/
def examplePrices : Nat → ℤ := fun i => [10, 9, 11, 12, 8].getD i 0

/-- Claim C1: the signal state machine, scanning steps in increasing order from
initial state `None`, behaves at each step exactly as the three-way branch of
the spec: buy fires when `buyCondition i` holds and the state is not `Buy`
(recording the close price as the buy marker, sell marker missing); otherwise
sell fires when `sellCondition i` holds and the state is `Buy` (recording the
close price as the sell marker, buy marker missing); otherwise both markers are
missing and the state is unchanged; sell is only considered via the else
branch.  `(generate_buy_sell_signals f g close i).lastSignal` is the state
current before step `i`. -/
theorem c1_signal_step_behavior {α : Type} (f g : Nat → Bool) (close : Nat → α)
    (n i : Nat) (hi : i < n) :
    ((generate_buy_sell_signals f g close n).indicatorState.length = n ∧
      (generate_buy_sell_signals f g close n).buy.length = n ∧
      (generate_buy_sell_signals f g close n).sell.length = n) ∧
    ((f i ∧ (generate_buy_sell_signals f g close i).lastSignal ≠ some Signal.Buy) →
      ((generate_buy_sell_signals f g close n).indicatorState.getD i none = some Signal.Buy ∧
        (generate_buy_sell_signals f g close n).buy.getD i none = some (close i) ∧
        (generate_buy_sell_signals f g close n).sell.getD i none = none)) ∧
    (¬(f i ∧ (generate_buy_sell_signals f g close i).lastSignal ≠ some Signal.Buy) →
      (g i ∧ (generate_buy_sell_signals f g close i).lastSignal = some Signal.Buy) →
      ((generate_buy_sell_signals f g close n).indicatorState.getD i none = some Signal.Sell ∧
        (generate_buy_sell_signals f g close n).buy.getD i none = none ∧
        (generate_buy_sell_signals f g close n).sell.getD i none = some (close i))) ∧
    (¬(f i ∧ (generate_buy_sell_signals f g close i).lastSignal ≠ some Signal.Buy) →
      ¬(g i ∧ (generate_buy_sell_signals f g close i).lastSignal = some Signal.Buy) →
      ((generate_buy_sell_signals f g close n).indicatorState.getD i none =
          (generate_buy_sell_signals f g close i).lastSignal ∧
        (generate_buy_sell_signals f g close n).buy.getD i none = none ∧
        (generate_buy_sell_signals f g close n).sell.getD i none = none)) := by
  refine ⟨gen_lengths f g close n, ?_, ?_, ?_⟩
  · intro h1
    rw [gen_state_getD f g close hi, gen_buy_getD f g close hi,
      gen_sell_getD f g close hi]
    unfold stepState stepBuy stepSell
    rw [if_pos h1, if_pos h1, if_pos h1]
    exact ⟨rfl, rfl, rfl⟩
  · intro h1 h2
    rw [gen_state_getD f g close hi, gen_buy_getD f g close hi,
      gen_sell_getD f g close hi]
    unfold stepState stepBuy stepSell
    rw [if_neg h1, if_neg h1, if_neg h1, if_pos h2, if_pos h2]
    exact ⟨rfl, rfl, rfl⟩
  · intro h1 h2
    rw [gen_state_getD f g close hi, gen_buy_getD f g close hi,
      gen_sell_getD f g close hi]
    unfold stepState stepBuy stepSell
    rw [if_neg h1, if_neg h1, if_neg h1, if_neg h2, if_neg h2]
    exact ⟨rfl, rfl, rfl⟩

/-- Witness for C1: with an always-true buy condition on a one-row table, step 0
transitions to `Buy`, records the close price as the buy marker, and leaves the
sell marker missing. -/
theorem c1_witness :
    (generate_buy_sell_signals (fun _ => true) (fun _ => false)
        (fun i => (i : ℤ)) 1).indicatorState.getD 0 none = some Signal.Buy ∧
    (generate_buy_sell_signals (fun _ => true) (fun _ => false)
        (fun i => (i : ℤ)) 1).buy.getD 0 none = some 0 ∧
    (generate_buy_sell_signals (fun _ => true) (fun _ => false)
        (fun i => (i : ℤ)) 1).sell.getD 0 none = none :=
  (c1_signal_step_behavior (fun _ => true) (fun _ => false) (fun i => (i : ℤ))
    1 0 (by decide)).2.1 ⟨rfl, by decide⟩

/-- Claim C2: if the buy condition never holds, the state stays `None` at every
step and all markers are missing; a sell marker can only be recorded when the
state before the step is `Buy` (sell never fires out of `None`); and a `Sell`
state may be followed by `Buy` again with no restriction: from a `Sell` state,
the buy condition alone re-fires the transition to `Buy` and records the close
price as the buy marker. -/
theorem c2_sell_only_from_buy {α : Type} (f g : Nat → Bool) (close : Nat → α)
    (n : Nat) :
    ((∀ i, f i = false) →
      generate_buy_sell_signals f g close n =
        ⟨none, List.replicate n none, List.replicate n none, List.replicate n none⟩) ∧
    (∀ i : Nat, i < n →
      (generate_buy_sell_signals f g close n).sell.getD i none ≠ none →
      (generate_buy_sell_signals f g close i).lastSignal = some Signal.Buy) ∧
    (∀ i : Nat, i < n →
      (generate_buy_sell_signals f g close i).lastSignal = some Signal.Sell →
      f i →
      (generate_buy_sell_signals f g close n).indicatorState.getD i none =
          some Signal.Buy ∧
      (generate_buy_sell_signals f g close n).buy.getD i none = some (close i)) := by
  refine ⟨?_, ?_, ?_⟩
  · intro hf
    induction n with
    | zero => rfl
    | succ n ih =>
      rw [gen_succ, ih]
      show sigStep f g close
        ⟨none, List.replicate n none, List.replicate n none, List.replicate n none⟩ n = _
      unfold sigStep
      rw [if_neg (by simp [hf n]), if_neg (by simp)]
      simp [List.replicate_succ']
  · intro i hi hne
    rw [gen_sell_getD f g close hi] at hne
    unfold stepSell at hne
    split_ifs at hne with h1 h2
    · exact absurd rfl hne
    · exact h2.2
    · exact absurd rfl hne
  · intro i hi hSell hf
    have hcond : f i ∧
        (generate_buy_sell_signals f g close i).lastSignal ≠ some Signal.Buy := by
      refine ⟨hf, ?_⟩
      rw [hSell]
      simp
    rw [gen_state_getD f g close hi, gen_buy_getD f g close hi]
    unfold stepState stepBuy
    rw [if_pos hcond, if_pos hcond]
    exact ⟨rfl, rfl⟩

/-- Witness for C2: a series whose buy condition never fires keeps everything
`None`; in a run with a sell at step 1 the state before that step is `Buy`; and
in a run that reaches `Sell` at step 2, the buy condition re-fires at step 2,
giving state `Buy` and buy marker equal to the close price (re-entry from
`Sell`, no restriction). -/
theorem c2_witness :
    generate_buy_sell_signals (fun _ => false) (fun _ => true) (fun i => (i : ℤ)) 2 =
      ⟨none, List.replicate 2 none, List.replicate 2 none, List.replicate 2 none⟩ ∧
    (generate_buy_sell_signals (fun i => decide (i = 0)) (fun _ => true)
        (fun i => (i : ℤ)) 1).lastSignal = some Signal.Buy ∧
    ((generate_buy_sell_signals (fun i => decide (i ≠ 1)) (fun _ => true)
        (fun i => (i : ℤ)) 3).indicatorState.getD 2 none = some Signal.Buy ∧
      (generate_buy_sell_signals (fun i => decide (i ≠ 1)) (fun _ => true)
        (fun i => (i : ℤ)) 3).buy.getD 2 none = some 2) :=
  ⟨(c2_sell_only_from_buy (fun _ => false) (fun _ => true) (fun i => (i : ℤ)) 2).1
      (fun _ => rfl),
    (c2_sell_only_from_buy (fun i => decide (i = 0)) (fun _ => true)
        (fun i => (i : ℤ)) 2).2.1 1 (by decide) (by decide),
    (c2_sell_only_from_buy (fun i => decide (i ≠ 1)) (fun _ => true)
        (fun i => (i : ℤ)) 3).2.2 2 (by decide) (by decide) (by decide)⟩

/-- Claim C3: at every step at most one of the buy and sell markers is
non-missing (out-of-range indices read as missing). -/
theorem c3_marker_mutual_exclusion {α : Type} (f g : Nat → Bool) (close : Nat → α)
    (n i : Nat) :
    (generate_buy_sell_signals f g close n).buy.getD i none = none ∨
    (generate_buy_sell_signals f g close n).sell.getD i none = none := by
  by_cases h : i < n
  · rw [gen_buy_getD f g close h, gen_sell_getD f g close h]
    unfold stepBuy stepSell
    split_ifs
    · right; rfl
    · left; rfl
    · left; rfl
  · left
    exact List.getD_eq_default _ _ (by rw [(gen_lengths f g close n).2.1]; omega)

/-- Claim C4: the signal state machine is total (it returns three full columns
of length `n` for every table) and on the empty table it returns
`lastState = None` and three empty sequences. -/
theorem c4_total_and_empty {α : Type} (f g : Nat → Bool) (close : Nat → α) :
    generate_buy_sell_signals f g close 0 =
      ⟨none, ([] : List (Option Signal)), ([] : List (Option α)), ([] : List (Option α))⟩ ∧
    ∀ n : Nat,
      (generate_buy_sell_signals f g close n).indicatorState.length = n ∧
      (generate_buy_sell_signals f g close n).buy.length = n ∧
      (generate_buy_sell_signals f g close n).sell.length = n :=
  ⟨rfl, fun n => gen_lengths f g close n⟩

/-- Claim C5: on the price series `[10, 9, 11, 12, 8]` with buy condition
`price < 10` and sell condition `price > 11`, the machine produces states
`[None, Buy, Buy, Sell, Buy]`, buy markers at steps 1 (value 9) and 4 (value 8),
a sell marker at step 3 (value 12), and final state `Buy`. -/
theorem c5_example_scenario :
    generate_buy_sell_signals (fun i => decide (examplePrices i < 10))
        (fun i => decide (examplePrices i > 11)) examplePrices 5 =
      ⟨some Signal.Buy,
        [none, some Signal.Buy, some Signal.Buy, some Signal.Sell, some Signal.Buy],
        [none, some 9, none, none, some 8],
        [none, none, none, some 12, none]⟩ := by decide

/-- Claim C10: the state sequence never returns to `None` after leaving it;
the transition out of `None` is always to `Buy`; and for a non-empty table the
returned scalar `lastState` equals the last entry of the state sequence. -/
theorem c10_no_return_to_none {α : Type} (f g : Nat → Bool) (close : Nat → α)
    (n : Nat) :
    (∀ i j : Nat, i ≤ j → j < n →
      (generate_buy_sell_signals f g close n).indicatorState.getD j none = none →
      (generate_buy_sell_signals f g close n).indicatorState.getD i none = none) ∧
    (∀ j : Nat, j < n →
      (generate_buy_sell_signals f g close j).lastSignal = none →
      (generate_buy_sell_signals f g close n).indicatorState.getD j none ≠ none →
      (generate_buy_sell_signals f g close n).indicatorState.getD j none = some Signal.Buy) ∧
    (n ≠ 0 → (generate_buy_sell_signals f g close n).lastSignal =
      (generate_buy_sell_signals f g close n).indicatorState.getD (n - 1) none) := by
  refine ⟨?_, ?_, gen_lastSignal_eq_state f g close n⟩
  · intro i j hij hj h0
    rcases eq_or_lt_of_le hij with rfl | hlt
    · exact h0
    · have hi : i < n := lt_trans hlt hj
      rw [gen_state_getD f g close hj] at h0
      have hLj := stepState_none_of_none f g h0
      have hLsi := gen_lastSignal_none_mono f g close hlt hLj
      rw [gen_state_getD f g close hi, ← gen_lastSignal_succ]
      exact hLsi
  · intro j hj hLj hne
    rw [gen_state_getD f g close hj] at hne ⊢
    unfold stepState at hne ⊢
    split_ifs at hne ⊢ with h1 h2
    · rfl
    · rw [hLj] at h2
      exact absurd h2.2 (by simp)
    · exact absurd hLj hne

/-- Witness for C10: concrete instances of the three conjuncts — an all-`None`
run stays `None` backwards, a first transition is to `Buy`, and `lastState`
matches the final state entry. -/
theorem c10_witness :
    (generate_buy_sell_signals (fun _ => false) (fun _ => false)
        (fun i => (i : ℤ)) 2).indicatorState.getD 0 none = none ∧
    (generate_buy_sell_signals (fun _ => true) (fun _ => false)
        (fun i => (i : ℤ)) 1).indicatorState.getD 0 none = some Signal.Buy ∧
    (generate_buy_sell_signals (fun _ => true) (fun _ => false)
        (fun i => (i : ℤ)) 1).lastSignal =
      (generate_buy_sell_signals (fun _ => true) (fun _ => false)
        (fun i => (i : ℤ)) 1).indicatorState.getD 0 none :=
  ⟨(c10_no_return_to_none (fun _ => false) (fun _ => false) (fun i => (i : ℤ)) 2).1
      0 1 (by decide) (by decide) (by decide),
    (c10_no_return_to_none (fun _ => true) (fun _ => false) (fun i => (i : ℤ)) 1).2.1
      0 (by decide) (by decide) (by decide),
    (c10_no_return_to_none (fun _ => true) (fun _ => false) (fun i => (i : ℤ)) 1).2.2
      (by decide)⟩

/-- KPI block computed in the `index` route (src lines 323-327): last price,
period high and low, percent change, and point count.  Finite float values are
idealized as exact rationals. -/
structure PriceSummary where
  last_price : ℚ
  high : ℚ
  low : ℚ
  change_pct : ℚ
  n_points : Nat
deriving DecidableEq

/-- Shallow embedding of the KPI computation (src lines 323-327):
`prices.iloc[-1]`, `prices.max()`, `prices.min()`,
`((prices.iloc[-1] / prices.iloc[0]) - 1) * 100`, `len(prices)`.
The empty series, on which pandas indexing raises, is given a harmless
default so the function stays total; the claims are stated for non-empty
series only. -/
def price_summary (prices : List ℚ) : PriceSummary :=
  { last_price := prices.getLastD 0
    high := match prices with
      | [] => 0
      | x :: xs => xs.foldl max x
    low := match prices with
      | [] => 0
      | x :: xs => xs.foldl min x
    change_pct := (prices.getLastD 0 / prices.headD 0 - 1) * 100
    n_points := prices.length }

theorem getLastD_eq_getLast :
    ∀ (l : List ℚ) (h : l ≠ []) (d : ℚ), l.getLastD d = l.getLast h
  | [], h, _ => absurd rfl h
  | [_], _, _ => rfl
  | x :: y :: ys, _, d => by
    show (y :: ys).getLastD x = _
    rw [getLastD_eq_getLast (y :: ys) (by simp) x]
    exact (List.getLast_cons (by simp)).symm

theorem foldl_max_mem (xs : List ℚ) (a : ℚ) :
    xs.foldl max a = a ∨ xs.foldl max a ∈ xs := by
  induction xs generalizing a with
  | nil => exact Or.inl rfl
  | cons x xs ih =>
    rcases ih (max a x) with h | h
    · rcases max_cases a x with ⟨he, _⟩ | ⟨he, _⟩
      · exact Or.inl (by rw [List.foldl_cons, h, he])
      · exact Or.inr (by rw [List.foldl_cons, h, he]; exact List.mem_cons_self x xs)
    · exact Or.inr (List.mem_cons_of_mem x h)

theorem le_foldl_max (xs : List ℚ) (a : ℚ) :
    a ≤ xs.foldl max a ∧ ∀ y ∈ xs, y ≤ xs.foldl max a := by
  induction xs generalizing a with
  | nil => exact ⟨le_refl a, by simp⟩
  | cons x xs ih =>
    refine ⟨le_trans (le_max_left a x) (ih (max a x)).1, ?_⟩
    intro y hy
    rcases List.mem_cons.mp hy with rfl | hy
    · exact le_trans (le_max_right a y) (ih (max a y)).1
    · exact (ih (max a x)).2 y hy

theorem foldl_min_mem (xs : List ℚ) (a : ℚ) :
    xs.foldl min a = a ∨ xs.foldl min a ∈ xs := by
  induction xs generalizing a with
  | nil => exact Or.inl rfl
  | cons x xs ih =>
    rcases ih (min a x) with h | h
    · rcases min_cases a x with ⟨he, _⟩ | ⟨he, _⟩
      · exact Or.inl (by rw [List.foldl_cons, h, he])
      · exact Or.inr (by rw [List.foldl_cons, h, he]; exact List.mem_cons_self x xs)
    · exact Or.inr (List.mem_cons_of_mem x h)

theorem foldl_min_le (xs : List ℚ) (a : ℚ) :
    xs.foldl min a ≤ a ∧ ∀ y ∈ xs, xs.foldl min a ≤ y := by
  induction xs generalizing a with
  | nil => exact ⟨le_refl a, by simp⟩
  | cons x xs ih =>
    refine ⟨le_trans (ih (min a x)).1 (min_le_left a x), ?_⟩
    intro y hy
    rcases List.mem_cons.mp hy with rfl | hy
    · exact le_trans (ih (min a y)).1 (min_le_right a y)
    · exact (ih (min a x)).2 y hy

/-- Claim C6: on a non-empty price series with a nonzero opening price, the
price summary computes exactly the last element, the maximum, the minimum, the
percent change formula `(price[n-1]/price[0] - 1) * 100`, and the length. -/
theorem c6_price_summary (prices : List ℚ) (h : prices ≠ [])
    (h0 : prices.head h ≠ 0) :
    (price_summary prices).last_price = prices.getLast h ∧
    ((price_summary prices).high ∈ prices ∧
      ∀ y ∈ prices, y ≤ (price_summary prices).high) ∧
    ((price_summary prices).low ∈ prices ∧
      ∀ y ∈ prices, (price_summary prices).low ≤ y) ∧
    (price_summary prices).change_pct =
      (prices.getLast h / prices.head h - 1) * 100 ∧
    (price_summary prices).n_points = prices.length := by
  obtain ⟨x, xs, rfl⟩ := List.exists_cons_of_ne_nil h
  refine ⟨getLastD_eq_getLast _ h 0, ⟨?_, ?_⟩, ⟨?_, ?_⟩, ?_, rfl⟩
  · show xs.foldl max x ∈ x :: xs
    rcases foldl_max_mem xs x with he | he
    · rw [he]; exact List.mem_cons_self x xs
    · exact List.mem_cons_of_mem x he
  · intro y hy
    show y ≤ xs.foldl max x
    rcases List.mem_cons.mp hy with rfl | hy
    · exact (le_foldl_max xs y).1
    · exact (le_foldl_max xs x).2 y hy
  · show xs.foldl min x ∈ x :: xs
    rcases foldl_min_mem xs x with he | he
    · rw [he]; exact List.mem_cons_self x xs
    · exact List.mem_cons_of_mem x he
  · intro y hy
    show xs.foldl min x ≤ y
    rcases List.mem_cons.mp hy with rfl | hy
    · exact (foldl_min_le xs y).1
    · exact (foldl_min_le xs x).2 y hy
  · show ((x :: xs).getLastD 0 / (x :: xs).headD 0 - 1) * 100 = _
    rw [getLastD_eq_getLast _ h 0]
    rfl

/-- Witness for C6: the summary of the series `[1, 2]` has last price 2,
percent change 100, and point count 2. -/
theorem c6_witness :
    (price_summary [1, 2]).last_price = 2 ∧
    (price_summary [1, 2]).change_pct = 100 ∧
    (price_summary [1, 2]).n_points = 2 := by
  have h := c6_price_summary [1, 2] (by simp) (by norm_num)
  refine ⟨?_, ?_, h.2.2.2.2⟩
  · rw [h.1]; rfl
  · rw [h.2.2.2.1]; norm_num

/-- Extended value type modelling the numpy float64 scalars that flow through
the percent-change expression at src line 326: finite doubles are idealized as
rationals, with the IEEE-754 special values `inf`, `-inf` and `nan` (signed
zero is not distinguished). -/
inductive EFloat where
  | finite (q : ℚ) : EFloat
  | inf : EFloat
  | neginf : EFloat
  | nan : EFloat
deriving DecidableEq

/-- IEEE-754 division as performed by numpy float64 scalars: division by zero
yields a signed infinity (or `nan` for `0/0`) and raises no exception. -/
def EFloat.div : EFloat → EFloat → EFloat
  | nan, _ => nan
  | _, nan => nan
  | finite a, finite b =>
    if b ≠ 0 then finite (a / b)
    else if 0 < a then inf
    else if a < 0 then neginf
    else nan
  | finite _, inf => finite 0
  | finite _, neginf => finite 0
  | inf, finite b => if 0 ≤ b then inf else neginf
  | inf, inf => nan
  | inf, neginf => nan
  | neginf, finite b => if 0 ≤ b then neginf else inf
  | neginf, inf => nan
  | neginf, neginf => nan

/-- IEEE-754 subtraction on the extended values. -/
def EFloat.sub : EFloat → EFloat → EFloat
  | nan, _ => nan
  | _, nan => nan
  | finite a, finite b => finite (a - b)
  | finite _, inf => neginf
  | finite _, neginf => inf
  | inf, finite _ => inf
  | inf, inf => nan
  | inf, neginf => inf
  | neginf, finite _ => neginf
  | neginf, inf => neginf
  | neginf, neginf => nan

/-- IEEE-754 multiplication on the extended values. -/
def EFloat.mul : EFloat → EFloat → EFloat
  | nan, _ => nan
  | _, nan => nan
  | finite a, finite b => finite (a * b)
  | inf, finite b => if 0 < b then inf else if b < 0 then neginf else nan
  | finite a, inf => if 0 < a then inf else if a < 0 then neginf else nan
  | neginf, finite b => if 0 < b then neginf else if b < 0 then inf else nan
  | finite a, neginf => if 0 < a then neginf else if a < 0 then inf else nan
  | inf, inf => inf
  | inf, neginf => neginf
  | neginf, inf => neginf
  | neginf, neginf => inf

/-- The percent-change expression of src line 326,
`((prices.iloc[-1] / prices.iloc[0]) - 1) * 100`, over the float semantics:
numpy float64 scalar arithmetic never raises, so the expression is a total
function into `EFloat` and the `except` branch of the route (src lines
360-361) is not reachable from a zero opening price. -/
def change_pct_float (prices : List EFloat) : EFloat :=
  EFloat.mul
    (EFloat.sub (EFloat.div (prices.getLastD EFloat.nan) (prices.headD EFloat.nan))
      (EFloat.finite 1))
    (EFloat.finite 100)

/-- Counterexample to C7: on the series `[0, 5]` (zero opening price) the
percent-change computation completes and silently returns `+inf`; it is a
value, not an error, so no ComputationError is raised. -/
theorem c7_counterexample :
    change_pct_float [EFloat.finite 0, EFloat.finite 5] = EFloat.inf ∧
    EFloat.inf ≠ EFloat.nan := by
  constructor
  · decide
  · decide

/-- Claim C7 as amended: on a series with opening price 0 and a positive last
price, the percent-change computation silently evaluates to `+inf` (IEEE
division by zero raises nothing); no ComputationError occurs. -/
theorem c7_amended_silent_infinity (prices : List EFloat) (q : ℚ)
    (h0 : prices.headD EFloat.nan = EFloat.finite 0)
    (hl : prices.getLastD EFloat.nan = EFloat.finite q) (hq : 0 < q) :
    change_pct_float prices = EFloat.inf := by
  have hdiv : EFloat.div (EFloat.finite q) (EFloat.finite 0) = EFloat.inf := by
    simp only [EFloat.div]
    rw [if_neg (by simp), if_pos hq]
  have hmul : EFloat.mul EFloat.inf (EFloat.finite 100) = EFloat.inf := by
    simp only [EFloat.mul]
    rw [if_pos (by norm_num)]
  unfold change_pct_float
  rw [h0, hl, hdiv]
  show EFloat.mul (EFloat.sub EFloat.inf (EFloat.finite 1)) (EFloat.finite 100) = _
  rw [show EFloat.sub EFloat.inf (EFloat.finite 1) = EFloat.inf from rfl, hmul]

/-- Witness for the amended C7: the series `[0, 7]` yields `+inf`. -/
theorem c7_witness :
    change_pct_float [EFloat.finite 0, EFloat.finite 7] = EFloat.inf :=
  c7_amended_silent_infinity [EFloat.finite 0, EFloat.finite 7] 7 rfl rfl
    (by norm_num)

/-- External indicator library (`ta` package), treated as a black box: each
field models the corresponding library call with the fixed parameters used by
the source (MACD 26/12/9 at src line 70, RSI window 20 at src line 87,
Bollinger window 20 and deviation 2 at src line 101).  Missing entries model
the NaN warm-up prefix of each indicator column. -/
structure IndicatorLib where
  macd : List ℚ → List (Option ℚ)
  macd_diff : List ℚ → List (Option ℚ)
  macd_signal : List ℚ → List (Option ℚ)
  rsi : List ℚ → List (Option ℚ)
  bollinger_mavg : List ℚ → List (Option ℚ)
  bollinger_hband : List ℚ → List (Option ℚ)
  bollinger_lband : List ℚ → List (Option ℚ)

/-- The dataframe `company.technical_indicators` after the pipelines have run:
one field per column written by the source (src lines 60-62, 71-73, 88,
102-104, 117).  Columns not yet written are empty. -/
structure IndicatorTable where
  Close : List ℚ
  MACD : List (Option ℚ) := []
  MACD_Histogram : List (Option ℚ) := []
  MACD_Signal : List (Option ℚ) := []
  MACD_Indicator : List (Option Signal) := []
  MACD_Buy : List (Option ℚ) := []
  MACD_Sell : List (Option ℚ) := []
  RSI : List (Option ℚ) := []
  RSI_Indicator : List (Option Signal) := []
  RSI_Buy : List (Option ℚ) := []
  RSI_Sell : List (Option ℚ) := []
  Bollinger_Bands_Middle : List (Option ℚ) := []
  Bollinger_Bands_Upper : List (Option ℚ) := []
  Bollinger_Bands_Lower : List (Option ℚ) := []
  Bollinger_Bands_Indicator : List (Option Signal) := []
  Bollinger_Bands_Buy : List (Option ℚ) := []
  Bollinger_Bands_Sell : List (Option ℚ) := []
deriving DecidableEq

/-- Container of src lines 29-34: ticker symbol, price series, and the
indicator table (Python `None` before `set_technical_indicators` runs). -/
structure Company where
  symbol : String
  prices : List ℚ
  technical_indicators : Option IndicatorTable

/-- Aggregated last-signal map returned by `set_technical_indicators`
(src lines 121-125). -/
structure LastSignals where
  MACD : String
  RSI : String
  BOLL : String
deriving DecidableEq

/-- Float comparison `a < b` as numpy evaluates it inside the condition
closures (src lines 77-78, 91-92, 107-108): any comparison involving NaN
(a missing warm-up value) is False. -/
def fltLt : Option ℚ → Option ℚ → Bool
  | some a, some b => decide (a < b)
  | _, _ => false

/-- Float comparison `a > b`; NaN comparisons are False. -/
def fltGt (a b : Option ℚ) : Bool := fltLt b a

/-- Python expression `last or 'None'` (src lines 82, 96, 112): the state
machine returns `None`, `'Buy'` or `'Sell'`, and `or` replaces only the `None`
sentinel (the two strings are non-empty, hence truthy). -/
def lastSignalText : Option Signal → String
  | none => "None"
  | some s => s.str

/-- MACD buy condition (src line 77): `MACD[i] < MACD_Signal[i]`. -/
def macd_buy_cond (lib : IndicatorLib) (prices : List ℚ) : Nat → Bool :=
  fun i => fltLt ((lib.macd prices).getD i none) ((lib.macd_signal prices).getD i none)

/-- MACD sell condition (src line 78): `MACD[i] > MACD_Signal[i]`. -/
def macd_sell_cond (lib : IndicatorLib) (prices : List ℚ) : Nat → Bool :=
  fun i => fltGt ((lib.macd prices).getD i none) ((lib.macd_signal prices).getD i none)

/-- RSI buy condition (src line 91): `RSI[i] < 40`. -/
def rsi_buy_cond (lib : IndicatorLib) (prices : List ℚ) : Nat → Bool :=
  fun i => fltLt ((lib.rsi prices).getD i none) (some 40)

/-- RSI sell condition (src line 92): `RSI[i] > 70`. -/
def rsi_sell_cond (lib : IndicatorLib) (prices : List ℚ) : Nat → Bool :=
  fun i => fltGt ((lib.rsi prices).getD i none) (some 70)

/-- Bollinger buy condition (src line 107): `Close[i] < Lower[i]`. -/
def bollinger_buy_cond (lib : IndicatorLib) (prices : List ℚ) : Nat → Bool :=
  fun i => fltLt (some (prices.getD i 0)) ((lib.bollinger_lband prices).getD i none)

/-- Bollinger sell condition (src line 108): `Close[i] > Upper[i]`. -/
def bollinger_sell_cond (lib : IndicatorLib) (prices : List ℚ) : Nat → Bool :=
  fun i => fltGt (some (prices.getD i 0)) ((lib.bollinger_hband prices).getD i none)

/-- Shallow embedding of `get_macd` (src lines 66-82): writes the three MACD
columns, runs the signal machine over the table, writes the three signal
columns, and returns `last or 'None'`.  The in-place dataframe mutation is
threaded explicitly. -/
def get_macd (lib : IndicatorLib) (prices : List ℚ) (df : IndicatorTable) :
    IndicatorTable × String :=
  let out := generate_buy_sell_signals (macd_buy_cond lib prices)
    (macd_sell_cond lib prices) (fun i => df.Close.getD i 0) df.Close.length
  ({ df with
      MACD := lib.macd prices
      MACD_Histogram := lib.macd_diff prices
      MACD_Signal := lib.macd_signal prices
      MACD_Indicator := out.indicatorState
      MACD_Buy := out.buy
      MACD_Sell := out.sell },
    lastSignalText out.lastSignal)

/-- Shallow embedding of `get_rsi` (src lines 85-96) with the default
parameters of the call at src line 119. -/
def get_rsi (lib : IndicatorLib) (prices : List ℚ) (df : IndicatorTable) :
    IndicatorTable × String :=
  let out := generate_buy_sell_signals (rsi_buy_cond lib prices)
    (rsi_sell_cond lib prices) (fun i => df.Close.getD i 0) df.Close.length
  ({ df with
      RSI := lib.rsi prices
      RSI_Indicator := out.indicatorState
      RSI_Buy := out.buy
      RSI_Sell := out.sell },
    lastSignalText out.lastSignal)

/-- Shallow embedding of `get_bollinger_bands` (src lines 99-112) with the
default window of the call at src line 120. -/
def get_bollinger_bands (lib : IndicatorLib) (prices : List ℚ) (df : IndicatorTable) :
    IndicatorTable × String :=
  let out := generate_buy_sell_signals (bollinger_buy_cond lib prices)
    (bollinger_sell_cond lib prices) (fun i => df.Close.getD i 0) df.Close.length
  ({ df with
      Bollinger_Bands_Middle := lib.bollinger_mavg prices
      Bollinger_Bands_Upper := lib.bollinger_hband prices
      Bollinger_Bands_Lower := lib.bollinger_lband prices
      Bollinger_Bands_Indicator := out.indicatorState
      Bollinger_Bands_Buy := out.buy
      Bollinger_Bands_Sell := out.sell },
    lastSignalText out.lastSignal)

/-- Shallow embedding of the orchestrator `set_technical_indicators`
(src lines 115-125): it replaces `company.technical_indicators` with a fresh
table holding only the `Close` column, runs the three pipelines in order, and
returns the aggregated last-signal map. -/
def set_technical_indicators (lib : IndicatorLib) (c : Company) :
    Company × LastSignals :=
  let r1 := get_macd lib c.prices { Close := c.prices }
  let r2 := get_rsi lib c.prices r1.1
  let r3 := get_bollinger_bands lib c.prices r2.1
  ({ c with technical_indicators := some r3.1 },
    { MACD := r1.2, RSI := r2.2, BOLL := r3.2 })

theorem lastSignalText_none {o : Option Signal} (h : o = none) :
    lastSignalText o = "None" := by rw [h]; rfl

theorem lastSignalText_some {o : Option Signal} {s : Signal} (h : o = some s) :
    lastSignalText o = s.str := by rw [h]; rfl

/-- Claim C8: each per-strategy entry of the last-signal map returned by the
orchestrator is the textual string `"None"` whenever the corresponding
pipeline's last state is the `None` sentinel, and otherwise equals the state's
string. -/
theorem c8_last_signal_text (lib : IndicatorLib) (c : Company) :
    ((generate_buy_sell_signals (macd_buy_cond lib c.prices)
        (macd_sell_cond lib c.prices) (fun i => c.prices.getD i 0)
        c.prices.length).lastSignal = none →
      (set_technical_indicators lib c).2.MACD = "None") ∧
    (∀ s : Signal, (generate_buy_sell_signals (macd_buy_cond lib c.prices)
        (macd_sell_cond lib c.prices) (fun i => c.prices.getD i 0)
        c.prices.length).lastSignal = some s →
      (set_technical_indicators lib c).2.MACD = s.str) ∧
    ((generate_buy_sell_signals (rsi_buy_cond lib c.prices)
        (rsi_sell_cond lib c.prices) (fun i => c.prices.getD i 0)
        c.prices.length).lastSignal = none →
      (set_technical_indicators lib c).2.RSI = "None") ∧
    (∀ s : Signal, (generate_buy_sell_signals (rsi_buy_cond lib c.prices)
        (rsi_sell_cond lib c.prices) (fun i => c.prices.getD i 0)
        c.prices.length).lastSignal = some s →
      (set_technical_indicators lib c).2.RSI = s.str) ∧
    ((generate_buy_sell_signals (bollinger_buy_cond lib c.prices)
        (bollinger_sell_cond lib c.prices) (fun i => c.prices.getD i 0)
        c.prices.length).lastSignal = none →
      (set_technical_indicators lib c).2.BOLL = "None") ∧
    (∀ s : Signal, (generate_buy_sell_signals (bollinger_buy_cond lib c.prices)
        (bollinger_sell_cond lib c.prices) (fun i => c.prices.getD i 0)
        c.prices.length).lastSignal = some s →
      (set_technical_indicators lib c).2.BOLL = s.str) :=
  ⟨fun h => lastSignalText_none h,
    fun _ h => lastSignalText_some h,
    fun h => lastSignalText_none h,
    fun _ h => lastSignalText_some h,
    fun h => lastSignalText_none h,
    fun _ h => lastSignalText_some h⟩

/-- Trivial indicator library used as a witness: every indicator value is
missing, so no condition ever fires. -/
def libAllMissing : IndicatorLib :=
  { macd := fun ps => List.replicate ps.length none
    macd_diff := fun ps => List.replicate ps.length none
    macd_signal := fun ps => List.replicate ps.length none
    rsi := fun ps => List.replicate ps.length none
    bollinger_mavg := fun ps => List.replicate ps.length none
    bollinger_hband := fun ps => List.replicate ps.length none
    bollinger_lband := fun ps => List.replicate ps.length none }

/-- Witness indicator library whose MACD line sits below its signal line
everywhere, so the MACD buy condition fires at step 0. -/
def libMacdBelow : IndicatorLib :=
  { libAllMissing with
    macd := fun ps => List.replicate ps.length (some 0)
    macd_signal := fun ps => List.replicate ps.length (some 1) }

/-- One-row company used by the orchestrator witnesses. -/
def companyW : Company := ⟨"AAPL", [1], none⟩

/-- Witness for C8: with the all-missing library the MACD entry reads
`"None"`; with the buy-firing library it reads `"Buy"`. -/
theorem c8_witness :
    (set_technical_indicators libAllMissing companyW).2.MACD = "None" ∧
    (set_technical_indicators libMacdBelow companyW).2.MACD = "Buy" :=
  ⟨(c8_last_signal_text libAllMissing companyW).1 (by decide),
    (c8_last_signal_text libMacdBelow companyW).2.1 Signal.Buy (by decide)⟩

/-- Claim C9: running the orchestrator twice on the same company yields the
identical last-signal map and the identical indicator table: the second run
reads only the (unchanged) price series and rebuilds the table from scratch,
so no hidden state can alter the result. -/
theorem c9_orchestrator_idempotent (lib : IndicatorLib) (c : Company) :
    (set_technical_indicators lib (set_technical_indicators lib c).1).2 =
      (set_technical_indicators lib c).2 ∧
    (set_technical_indicators lib (set_technical_indicators lib c).1).1.technical_indicators =
      (set_technical_indicators lib c).1.technical_indicators :=
  ⟨rfl, rfl⟩

end TradingAnalysis
